import Mathlib

/-!
Shallow embedding of the Airbyte docker connector runner
(`src/server/airbyte/runner.go`) of the jitsu server.

The Go code spawns a docker process per operation (spec / check / discover /
read), drains its stdout through a protocol parser, and guarantees
termination via a one-shot `closed` channel.  Nondeterministic inputs of an
invocation (image pull status, Start/Wait failures, the lines the connector
prints on stdout, the text it prints on stderr) are collected in an explicit
environment record `Env`; generated uuids and filesystem outcomes of the
config materializer are collected in `ConfigEnv`.  Side effects that matter
to the specification (process spawns, container stops, process kills, Go
panics) are recorded as an explicit event trace.

The protocol parsers, the `Instance` collaborator, the sentinel errors of
package `runner` and the `base` file-name constants live in files of this
repository that are not under `src/`; those definitions are modelled from
the spec and carry a doc comment saying so.
-/

namespace AirbyteRunner

/-- Constant `connectionStatusSucceed` from runner.go line 23. -/
def connectionStatusSucceed : String := "SUCCEEDED"

/-- Constant `connectionStatusFailed` from runner.go line 24. -/
def connectionStatusFailed : String := "FAILED"

/-- Modelled from the spec: the container runtime binary used to spawn
connectors (Go package constant `DockerCommand`, not under src/); `Close`
hard-codes the same binary for the out-of-band container stop. -/
def DockerCommand : String := "docker"

/-- Modelled from the spec: the desired row type of a SPEC protocol message
(Go constant `SpecType`, not under src/). -/
def SpecType : String := "SPEC"

/-- Modelled from the spec: the desired row type of a CONNECTION_STATUS
protocol message (Go constant `ConnectionStatusType`, not under src/). -/
def ConnectionStatusType : String := "CONNECTION_STATUS"

/-- Modelled from the spec: the desired row type of a CATALOG protocol
message (Go constant `CatalogType`, not under src/). -/
def CatalogType : String := "CATALOG"

/-- Modelled from the spec: the fixed config file name of the mounted
read artifacts (Go `base.ConfigFileName`, not under src/). -/
def configFileName : String := "config.json"

/-- Modelled from the spec: the fixed catalog file name of the mounted
read artifacts (Go `base.CatalogFileName`, not under src/). -/
def catalogFileName : String := "catalog.json"

/-- Modelled from the spec: the fixed state file name of the mounted
read artifacts (Go `base.StateFileName`, not under src/). -/
def stateFileName : String := "state.json"

/-- Payload of a CONNECTION_STATUS protocol message (`status`, `message`). -/
structure ConnectionStatus where
  status : String
  message : String
deriving DecidableEq, Repr

/-- Modelled from the spec: one line of connector stdout, already split on
newlines.  A malformed line has no usable discriminator; a well-formed line
carries its discriminator in `rowType` and, when the discriminator says so,
a CONNECTION_STATUS payload or a catalog payload.  `raw` is the raw text of
the line, retained for diagnostic buffers. -/
structure Line where
  malformed : Bool := false
  rowType : String := ""
  connectionStatus : ConnectionStatus := ⟨"", ""⟩
  catalog : Option String := none
  raw : String := ""
deriving DecidableEq, Repr

/-- A line matches a desired row type when it is well formed and its
discriminator equals the desired type. -/
def Line.matchesType (l : Line) (desired : String) : Bool :=
  !l.malformed && l.rowType == desired

/-- Go error values as seen by callers of the runner.  The two sentinels
(`runner.ErrNotReady`, `runner.ErrAirbyteAlreadyTerminated`) are compared by
identity in the Go code (`err == runner.ErrNotReady`), so they are separate
constructors.  `msg` is an `errors.New`/`fmt.Errorf` error; `diagnostic` is
an error built from `Instance.BuildMsg(header, parserOutput, stderr, cause)`
kept in structured form. -/
inductive GoError where
  | notReady
  | alreadyTerminated
  | msg (text : String)
  | diagnostic (header output errOutput : String) (cause : GoError)
deriving DecidableEq, Repr

/-- An error derives from the AlreadyTerminated condition when it is the
sentinel itself or a diagnostic wrap whose cause derives from it. -/
def GoError.carriesAlreadyTerminated : GoError → Bool
  | .alreadyTerminated => true
  | .diagnostic _ _ _ c => c.carriesAlreadyTerminated
  | _ => false

/-- Observable side effects of a runner invocation. -/
inductive Event where
  | spawn (command : String) (args : List String)
  | dockerStop (name : String)
  | kill
  | panicked (reason : String)
deriving DecidableEq, Repr

/-- The `exec.Cmd` handle stored in `Runner.command`: its argument list and
whether `Start` succeeded (in Go, `cmd.Process` is nil until then). -/
structure Cmd where
  args : List String
  started : Bool
deriving DecidableEq, Repr

/-- The Runner struct from runner.go lines 30-39.  The one-shot `closed`
channel is modelled by a Boolean flag (`closed = true` iff the channel has
been closed); `command` is absent until `run` constructs it. -/
structure Runner where
  dockerImage : String
  version : String
  identifier : String
  closed : Bool
  command : Option Cmd
deriving DecidableEq, Repr

/-- NewRunner from runner.go lines 42-52.  The generated uuid is an explicit
argument in place of `uuid.New()`. -/
def NewRunner (dockerImage imageVersion identifier freshUUID : String) : Runner :=
  { dockerImage := dockerImage
    version := imageVersion
    identifier :=
      if identifier = "" then dockerImage ++ "-" ++ imageVersion ++ "-" ++ freshUUID
      else identifier
    closed := false
    command := none }

/-- Result of a `Close` call.  `panicNilProcess` records the Go nil pointer
dereference that `r.command.Process.Kill()` performs when `run` never
constructed a command or `Start` never succeeded. -/
inductive CloseOutcome where
  | alreadyTerminated
  | killed
  | panicNilProcess
deriving DecidableEq, Repr

/-- What a `Close` call produced: its outcome, the runner state after it and
the events it performed. -/
structure CloseResult where
  outcome : CloseOutcome
  runner : Runner
  events : List Event
deriving DecidableEq, Repr

/-- Close from runner.go lines 195-205: if the `closed` channel is already
closed, return the AlreadyTerminated sentinel; otherwise close the channel,
start an out-of-band `docker stop <identifier>` and call
`r.command.Process.Kill()` — which dereferences nil when no command was ever
constructed, or when the command never started a process. -/
def Runner.Close (r : Runner) : CloseResult :=
  if r.closed then ⟨CloseOutcome.alreadyTerminated, r, []⟩
  else
    let rc : Runner := { r with closed := true }
    match r.command with
    | none =>
      ⟨CloseOutcome.panicNilProcess, rc,
        [Event.dockerStop r.identifier, Event.panicked "nil pointer dereference: r.command is nil"]⟩
    | some c =>
      if c.started then
        ⟨CloseOutcome.killed, rc, [Event.dockerStop r.identifier, Event.kill]⟩
      else
        ⟨CloseOutcome.panicNilProcess, rc,
          [Event.dockerStop r.identifier, Event.panicked "nil pointer dereference: r.command.Process is nil"]⟩

instance {ε α : Type} [DecidableEq ε] [DecidableEq α] : DecidableEq (Except ε α) := fun x y =>
  match x, y with
  | Except.error e1, Except.error e2 =>
    if h : e1 = e2 then isTrue (by rw [h]) else isFalse (by intro hc; cases hc; exact h rfl)
  | Except.error _, Except.ok _ => isFalse (by intro hc; cases hc)
  | Except.ok _, Except.error _ => isFalse (by intro hc; cases hc)
  | Except.ok a1, Except.ok a2 =>
    if h : a1 = a2 then isTrue (by rw [h]) else isFalse (by intro hc; cases hc; exact h rfl)

/-- Result of a protocol parser over a finite stdout stream: the parse
result and the accumulated diagnostic output buffer. -/
structure ParseOutcome (α : Type) where
  result : Except String α
  output : String
deriving DecidableEq, Repr

/-- The last line of the stream matching the desired row type
(last-observed-wins). -/
def lastMatch (desired : String) (lines : List Line) : Option Line :=
  lines.foldl (fun acc l => if l.matchesType desired then some l else acc) none

/-- The diagnostic buffer accumulated by the synchronous parser: every line
the connector printed. -/
def syncOutput (lines : List Line) : String :=
  String.intercalate "\n" (lines.map Line.raw)

/-- Modelled from the spec: the synchronous protocol parser used by
Spec/Check/Discover (`synchronousParser.parse`, not under src/).  It reads
the whole stream, keeps the last message matching the desired row type
(last-observed-wins), and when no such message was observed returns an error
that embeds the entire accumulated output. -/
def syncParse (desired : String) (lines : List Line) : ParseOutcome Line :=
  match lastMatch desired lines with
  | some l => ⟨Except.ok l, syncOutput lines⟩
  | none =>
    ⟨Except.error ("desired row type [" ++ desired ++ "] was not found in output: "
        ++ syncOutput lines),
      syncOutput lines⟩

/-- Modelled from the spec: the asynchronous protocol parser used by Read
(`asynchronousParser.parse`, not under src/).  It streams every line,
tolerating unknown discriminators, and aborts with a parse error on the
first malformed line. -/
def asyncParse (lines : List Line) : ParseOutcome Unit :=
  if lines.any Line.malformed then ⟨Except.error "error parsing airbyte line", ""⟩
  else ⟨Except.ok (), ""⟩

/-- Environment of one invocation: the pull status reported by the
image-runtime collaborator, the outcome of `command.Start`, the lines the
connector writes to stdout, the text it writes to stderr, and the outcome of
`command.Wait`. -/
structure Env where
  imagePulled : Bool
  startErr : Option String
  stdoutLines : List Line
  stderrText : String
  waitErr : Option String
deriving DecidableEq, Repr

/-- Modelled from the spec: the configuration of the `Instance` collaborator
used by the runner (workspace volume, config directory, mount alias; not
under src/). -/
structure Inst where
  workspaceVolume : String
  configDir : String
  volumeAlias : String
deriving DecidableEq, Repr

/-- Modelled from the spec: the image-runtime collaborator namespaces an
image under the `airbyte/` organisation unless it already carries that
namespace (Go `Instance.AddAirbytePrefix`, not under src/). -/
def qualifyImage (dockerImage : String) : String :=
  if dockerImage.data.take "airbyte/".data.length = "airbyte/".data then dockerImage
  else "airbyte/" ++ dockerImage

/-- Go `path.Join` restricted to the clean, slash-free components the runner
joins (uuid-generated names, source ids, image names, fixed file names). -/
def pathJoin (a b : String) : String :=
  if a = "" then b else if b = "" then a else a ++ "/" ++ b

/-- Result of `Runner.run`: the returned error (if any), the parser's
diagnostic output buffer, the captured stderr text, the runner state after
the call, and the event trace. -/
structure RunResult (α : Type) where
  result : Except GoError α
  output : String
  errOutput : String
  runner : Runner
  events : List Event
deriving DecidableEq, Repr

/-- run from runner.go lines 216-287.  Guards: the terminated check, then
the image-pulled check — both return before any process is spawned and
before the deferred Close is registered.  Past the guards the command is
constructed and started; on every such path the deferred `r.Close()` runs
before returning, closing the runner.  `command.Wait` errors take precedence
over the stdout handler's parsing error.  The watchdog ticker is not timed
here: a deadline firing surfaces as a `waitErr` of the killed process, and
the watchdog's own Close is the same `Runner.Close` exercised below. -/
def Runner.run {α : Type} (r : Runner) (env : Env)
    (handler : List Line → ParseOutcome α) (cmdArgs : List String) : RunResult α :=
  if r.closed then ⟨Except.error GoError.alreadyTerminated, "", "", r, []⟩
  else if !env.imagePulled then ⟨Except.error GoError.notReady, "", "", r, []⟩
  else
    match env.startErr with
    | some e =>
      let r1 : Runner := { r with command := some { args := cmdArgs, started := false } }
      let c := r1.Close
      ⟨Except.error (GoError.msg e), "", "", c.runner, Event.spawn DockerCommand cmdArgs :: c.events⟩
    | none =>
      let r1 : Runner := { r with command := some { args := cmdArgs, started := true } }
      let po := handler env.stdoutLines
      let res : Except GoError α :=
        match env.waitErr with
        | some e => Except.error (GoError.msg e)
        | none =>
          match po.result with
          | Except.error pe => Except.error (GoError.msg pe)
          | Except.ok a => Except.ok a
      let c := r1.Close
      ⟨res, po.output, env.stderrText, c.runner, Event.spawn DockerCommand cmdArgs :: c.events⟩

/-- Generated uuids and filesystem outcomes consumed by `saveConfig`:
the generated directory name, the generated file base name, the outcome of
`logging.EnsureDir` and the outcome of `parsers.ParseJSONAsFile`. -/
structure ConfigEnv where
  dirName : String
  fileBase : String
  ensureDirErr : Option String
  writeErr : Option String
deriving DecidableEq, Repr

/-- saveConfig from runner.go lines 301-318: generate a directory name and a
file name, create the directory, serialize the config; on failure return the
wrapped error, on success return the absolute dir and the related file
path. -/
def saveConfig (configDir : String) (cenv : ConfigEnv)
    (airbyteSourceConfig : String) : Except String (String × String) :=
  let fileName := cenv.fileBase ++ ".json"
  let absoluteDirPath := pathJoin configDir cenv.dirName
  match cenv.ensureDirErr with
  | some e => Except.error ("Error creating airbyte generated config dir: " ++ e)
  | none =>
    match cenv.writeErr with
    | some e =>
      Except.error ("Error writing airbyte config [" ++ airbyteSourceConfig ++ "]: " ++ e)
    | none => Except.ok (absoluteDirPath, pathJoin cenv.dirName fileName)

/-- Result of a public runner operation: returned value or error, runner
state after the call, event trace. -/
structure OpResult (α : Type) where
  result : Except GoError α
  runner : Runner
  events : List Event
deriving DecidableEq, Repr

/-- Argument list of the spec invocation, runner.go line 68. -/
def Runner.specArgs (r : Runner) : List String :=
  ["run", "--rm", "-i", "--name", r.identifier,
    qualifyImage r.dockerImage ++ ":" ++ r.version, "spec"]

/-- Argument list of the check invocation, runner.go line 97. -/
def Runner.checkArgs (r : Runner) (inst : Inst) (relatedFilePath : String) : List String :=
  ["run", "--rm", "-i", "--name", r.identifier, "-v",
    inst.workspaceVolume ++ ":" ++ inst.volumeAlias,
    qualifyImage r.dockerImage ++ ":" ++ r.version,
    "check", "--config", pathJoin inst.volumeAlias relatedFilePath]

/-- Argument list of the discover invocation, runner.go line 135. -/
def Runner.discoverArgs (r : Runner) (inst : Inst) (relatedFilePath : String) : List String :=
  ["run", "--rm", "-i", "--name", r.identifier, "-v",
    inst.workspaceVolume ++ ":" ++ inst.volumeAlias,
    qualifyImage r.dockerImage ++ ":" ++ r.version,
    "discover", "--config", pathJoin inst.volumeAlias relatedFilePath]

/-- Argument list of the read invocation, runner.go lines 185-189.  The
container is named after `taskCloser.TaskID()`, the `--config`/`--catalog`
paths are joined from the mount alias, the source id, the image name and the
fixed file names, and `--state` is appended exactly when `statePath` is
non-empty (its content is never used). -/
def Runner.readArgs (r : Runner) (inst : Inst)
    (taskID sourceID statePath : String) : List String :=
  let args := ["run", "--rm", "-i", "--name", taskID, "-v",
    inst.workspaceVolume ++ ":" ++ inst.volumeAlias,
    qualifyImage r.dockerImage ++ ":" ++ r.version,
    "read",
    "--config", pathJoin (pathJoin (pathJoin inst.volumeAlias sourceID) r.dockerImage) configFileName,
    "--catalog", pathJoin (pathJoin (pathJoin inst.volumeAlias sourceID) r.dockerImage) catalogFileName]
  if statePath ≠ "" then
    args ++ ["--state",
      pathJoin (pathJoin (pathJoin inst.volumeAlias sourceID) r.dockerImage) stateFileName]
  else args

/-- Spec from runner.go lines 64-80: run the spec command with the
synchronous parser; propagate NotReady verbatim; wrap any other error in a
diagnostic message; on success return the parsed row. -/
def Runner.Spec (r : Runner) (env : Env) : OpResult Line :=
  let rr := r.run env (syncParse SpecType) r.specArgs
  match rr.result with
  | Except.ok row => ⟨Except.ok row, rr.runner, rr.events⟩
  | Except.error GoError.notReady => ⟨Except.error GoError.notReady, rr.runner, rr.events⟩
  | Except.error e =>
    ⟨Except.error (GoError.diagnostic "Error loading airbyte spec:" rr.output rr.errOutput e),
      rr.runner, rr.events⟩

/-- Check from runner.go lines 82-116: materialize the config (aborting on
failure before any run), run the check command, propagate NotReady verbatim,
wrap other run errors, then switch on the observed connection status:
SUCCEEDED is nil, FAILED is an error that is exactly the connector's
message, anything else is the unknown-status error naming both fields. -/
def Runner.Check (r : Runner) (inst : Inst) (env : Env) (cenv : ConfigEnv)
    (airbyteSourceConfig : String) : OpResult Unit :=
  match saveConfig inst.configDir cenv airbyteSourceConfig with
  | Except.error e => ⟨Except.error (GoError.msg e), r, []⟩
  | Except.ok res =>
    let rr := r.run env (syncParse ConnectionStatusType) (r.checkArgs inst res.2)
    match rr.result with
    | Except.error GoError.notReady => ⟨Except.error GoError.notReady, rr.runner, rr.events⟩
    | Except.error e =>
      ⟨Except.error (GoError.diagnostic "Error executing airbyte check:" rr.output rr.errOutput e),
        rr.runner, rr.events⟩
    | Except.ok row =>
      if row.connectionStatus.status = connectionStatusSucceed then
        ⟨Except.ok (), rr.runner, rr.events⟩
      else if row.connectionStatus.status = connectionStatusFailed then
        ⟨Except.error (GoError.msg row.connectionStatus.message), rr.runner, rr.events⟩
      else
        ⟨Except.error (GoError.msg ("unknown airbyte connection status ["
            ++ row.connectionStatus.status ++ "]: " ++ row.connectionStatus.message)),
          rr.runner, rr.events⟩

/-- Discover from runner.go lines 119-147: same materialization discipline
as Check; runs the discover command; returns the catalog of the parsed row.
The caller-specified timeout only parameterizes the watchdog and is unused
in the untimed model. -/
def Runner.Discover (r : Runner) (inst : Inst) (env : Env) (cenv : ConfigEnv)
    (airbyteSourceConfig : String) (_timeout : Nat) : OpResult (Option String) :=
  match saveConfig inst.configDir cenv airbyteSourceConfig with
  | Except.error e => ⟨Except.error (GoError.msg e), r, []⟩
  | Except.ok res =>
    let rr := r.run env (syncParse CatalogType) (r.discoverArgs inst res.2)
    match rr.result with
    | Except.error GoError.notReady => ⟨Except.error GoError.notReady, rr.runner, rr.events⟩
    | Except.error e =>
      ⟨Except.error (GoError.diagnostic "Error loading airbyte catalog:" rr.output rr.errOutput e),
        rr.runner, rr.events⟩
    | Except.ok row => ⟨Except.ok row.catalog, rr.runner, rr.events⟩

/-- Read from runner.go lines 149-193: build the read arguments and return
the result of `run` with the asynchronous parser verbatim (line 192).  The
stdout handler's panic recovery and its in-stream `Close` only reorder the
single termination already guaranteed by the deferred Close inside `run`,
so they introduce no further modelled effect. -/
def Runner.Read (r : Runner) (inst : Inst) (env : Env)
    (taskID sourceID statePath : String) : OpResult Unit :=
  let rr := r.run env asyncParse (r.readArgs inst taskID sourceID statePath)
  ⟨rr.result, rr.runner, rr.events⟩

/-- Per-thread control state of one `Close` call in the two-trigger race
model: `atCheck` is about to run the `terminated()` select, `atCloseChan` is
about to run `close(r.closed)` (which panics in Go when the channel is
already closed), `atStopKill` is about to issue the container stop and the
process kill. -/
inductive ThreadState where
  | atCheck
  | atCloseChan
  | atStopKill
  | retAlreadyTerminated
  | retKilled
  | panickedClosedChan
deriving DecidableEq, Repr

/-- State of two concurrent `Close` calls on one mid-Running runner: the
one-shot channel flag, both thread states, and how many container-stop and
process-kill actions have been performed. -/
structure RaceState where
  chanClosed : Bool
  t1 : ThreadState
  t2 : ThreadState
  stopCount : Nat
  killCount : Nat
deriving DecidableEq, Repr

/-- One atomic step of one `Close` call, at the granularity of the channel
operations of runner.go lines 195-205: the `terminated()` check, then
`close(r.closed)` — a Go panic when the channel is already closed — then the
container stop plus process kill.  Returns the new thread state, the new
channel flag, and the number of stop and kill actions performed. -/
def stepThread (chanClosed : Bool) (t : ThreadState) : ThreadState × Bool × Nat × Nat :=
  match t with
  | ThreadState.atCheck =>
    (if chanClosed then ThreadState.retAlreadyTerminated else ThreadState.atCloseChan,
      chanClosed, 0, 0)
  | ThreadState.atCloseChan =>
    if chanClosed then (ThreadState.panickedClosedChan, chanClosed, 0, 0)
    else (ThreadState.atStopKill, true, 0, 0)
  | ThreadState.atStopKill => (ThreadState.retKilled, chanClosed, 1, 1)
  | t => (t, chanClosed, 0, 0)

/-- Interleaving step: schedule thread 1 (`true`) or thread 2 (`false`). -/
def raceStep (s : RaceState) (first : Bool) : RaceState :=
  if first then
    match stepThread s.chanClosed s.t1 with
    | (tn, c, st, k) =>
      { s with
        t1 := tn
        chanClosed := c
        stopCount := s.stopCount + st
        killCount := s.killCount + k }
  else
    match stepThread s.chanClosed s.t2 with
    | (tn, c, st, k) =>
      { s with
        t2 := tn
        chanClosed := c
        stopCount := s.stopCount + st
        killCount := s.killCount + k }

/-- Initial race state: runner mid-Running (channel open), both triggers —
the deadline watchdog and the caller — about to enter `Close`. -/
def raceInit : RaceState :=
  { chanClosed := false
    t1 := ThreadState.atCheck
    t2 := ThreadState.atCheck
    stopCount := 0
    killCount := 0 }

/-- Run a schedule of interleaved steps from the initial race state. -/
def runSchedule (sched : List Bool) : RaceState :=
  sched.foldl raceStep raceInit

/-! Helper lemmas about the guards of `run` and about `Close`. -/

theorem run_closed_eq {α : Type} (r : Runner) (env : Env)
    (handler : List Line → ParseOutcome α) (args : List String)
    (hc : r.closed = true) :
    r.run env handler args = ⟨Except.error GoError.alreadyTerminated, "", "", r, []⟩ := by
  simp [Runner.run, hc]

theorem run_notpulled_eq {α : Type} (r : Runner) (env : Env)
    (handler : List Line → ParseOutcome α) (args : List String)
    (hOpen : r.closed = false) (hPulled : env.imagePulled = false) :
    r.run env handler args = ⟨Except.error GoError.notReady, "", "", r, []⟩ := by
  simp [Runner.run, hOpen, hPulled]

theorem run_spawn_eq {α : Type} (r : Runner) (env : Env)
    (handler : List Line → ParseOutcome α) (args : List String)
    (hOpen : r.closed = false) (hPulled : env.imagePulled = true)
    (hStart : env.startErr = none) :
    r.run env handler args =
      ⟨(match env.waitErr with
        | some e => Except.error (GoError.msg e)
        | none =>
          match (handler env.stdoutLines).result with
          | Except.error pe => Except.error (GoError.msg pe)
          | Except.ok a => Except.ok a),
        (handler env.stdoutLines).output, env.stderrText,
        { r with closed := true, command := some { args := args, started := true } },
        [Event.spawn DockerCommand args, Event.dockerStop r.identifier, Event.kill]⟩ := by
  simp [Runner.run, Runner.Close, hOpen, hPulled, hStart]

theorem close_closed_eq (r : Runner) (hc : r.closed = true) :
    r.Close = ⟨CloseOutcome.alreadyTerminated, r, []⟩ := by
  simp [Runner.Close, hc]

theorem close_sets_flag (r : Runner) : r.Close.runner.closed = true := by
  by_cases hc : r.closed
  · simp [Runner.Close, hc]
  · simp only [Bool.not_eq_true] at hc
    cases hcmd : r.command with
    | none => simp [Runner.Close, hc, hcmd]
    | some c =>
      by_cases hs : c.started
      · simp [Runner.Close, hc, hcmd, hs]
      · simp [Runner.Close, hc, hcmd, hs]

theorem spec_closed_eq (r : Runner) (env : Env) (hc : r.closed = true) :
    r.Spec env =
      ⟨Except.error (GoError.diagnostic "Error loading airbyte spec:" "" "" GoError.alreadyTerminated),
        r, []⟩ := by
  simp [Runner.Spec, run_closed_eq _ _ _ _ hc]

theorem check_closed_eq (r : Runner) (inst : Inst) (env : Env) (cenv : ConfigEnv)
    (cfg : String) (hc : r.closed = true) :
    r.Check inst env cenv cfg =
      match saveConfig inst.configDir cenv cfg with
      | Except.error e => ⟨Except.error (GoError.msg e), r, []⟩
      | Except.ok _ =>
        ⟨Except.error
            (GoError.diagnostic "Error executing airbyte check:" "" "" GoError.alreadyTerminated),
          r, []⟩ := by
  cases hsc : saveConfig inst.configDir cenv cfg with
  | error e => simp [Runner.Check, hsc]
  | ok p => simp [Runner.Check, hsc, run_closed_eq _ _ _ _ hc]

theorem discover_closed_eq (r : Runner) (inst : Inst) (env : Env) (cenv : ConfigEnv)
    (cfg : String) (tmo : Nat) (hc : r.closed = true) :
    r.Discover inst env cenv cfg tmo =
      match saveConfig inst.configDir cenv cfg with
      | Except.error e => ⟨Except.error (GoError.msg e), r, []⟩
      | Except.ok _ =>
        ⟨Except.error
            (GoError.diagnostic "Error loading airbyte catalog:" "" "" GoError.alreadyTerminated),
          r, []⟩ := by
  cases hsc : saveConfig inst.configDir cenv cfg with
  | error e => simp [Runner.Discover, hsc]
  | ok p => simp [Runner.Discover, hsc, run_closed_eq _ _ _ _ hc]

theorem read_closed_eq (r : Runner) (inst : Inst) (env : Env)
    (taskID sourceID statePath : String) (hc : r.closed = true) :
    r.Read inst env taskID sourceID statePath =
      ⟨Except.error GoError.alreadyTerminated, r, []⟩ := by
  simp [Runner.Read, run_closed_eq _ _ _ _ hc]

/-! Concrete sample inputs, shared by witnesses and counterexamples. -/

def instEx : Inst := { workspaceVolume := "/wsvol", configDir := "/cfg", volumeAlias := "/pipes" }

def rEx : Runner := NewRunner "postgres" "0.3.9" "ident-1" "uuid-1"

def envPulled : Env :=
  { imagePulled := true, startErr := none, stdoutLines := [], stderrText := "", waitErr := none }

def envNotPulled : Env :=
  { imagePulled := false, startErr := none, stdoutLines := [], stderrText := "", waitErr := none }

def cenvOk : ConfigEnv :=
  { dirName := "dir1", fileBase := "file1", ensureDirErr := none, writeErr := none }

def cenvDirFail : ConfigEnv :=
  { dirName := "dir1", fileBase := "file1", ensureDirErr := some "disk full", writeErr := none }

def cenvWriteFail : ConfigEnv :=
  { dirName := "dir1", fileBase := "file1", ensureDirErr := none, writeErr := some "bad json" }

def csLine (st msg : String) : Line :=
  { rowType := "CONNECTION_STATUS", connectionStatus := ⟨st, msg⟩, raw := "cs-line" }

def envTwoStatuses : Env :=
  { imagePulled := true
    startErr := none
    stdoutLines := [csLine "SUCCEEDED" "", csLine "FAILED" "bad creds"]
    stderrText := ""
    waitErr := none }

def envOneSucceeded : Env :=
  { imagePulled := true
    startErr := none
    stdoutLines := [csLine "SUCCEEDED" "ok"]
    stderrText := ""
    waitErr := none }

def rClosedEx : Runner :=
  { dockerImage := "postgres"
    version := "0.3.9"
    identifier := "ident-1"
    closed := true
    command := some { args := [], started := true } }

/-- True when some well-formed CONNECTION_STATUS line of the stream has
status SUCCEEDED (the condition the claim about `Check` quantifies over). -/
def observedSucceeded (lines : List Line) : Bool :=
  lines.any fun l => l.matchesType ConnectionStatusType && l.connectionStatus.status == connectionStatusSucceed

/-- C1 counterexample: a Runner on which Close has been invoked (its channel
flag is set) does not return the AlreadyTerminated condition from `Check`
when config materialization fails first: the directory-creation error comes
back instead, because `saveConfig` runs before the terminated guard
(runner.go lines 86-89 precede the `run` call of line 96). -/
theorem c1_counterexample :
    rClosedEx.closed = true
    ∧ (rClosedEx.Check instEx envPulled cenvDirFail "cfg").result
        = Except.error (GoError.msg "Error creating airbyte generated config dir: disk full")
    ∧ GoError.carriesAlreadyTerminated
        (GoError.msg "Error creating airbyte generated config dir: disk full") = false := by
  exact ⟨rfl, by decide, rfl⟩

/-- C1 (amended): after `Close()` has been invoked on a Runner, every
subsequent operation fails without spawning a process
and without a second termination action (its event trace is empty and the
runner state is unchanged): Read and Close return the AlreadyTerminated
sentinel verbatim; Spec returns a diagnostic error whose cause is the
sentinel; Check and Discover do likewise when config materialization
succeeds, and return the materialization error otherwise. -/
theorem c1_after_close_operations (r0 : Runner) (inst : Inst) (env : Env)
    (cenv : ConfigEnv) (cfg taskID sourceID statePath : String) (tmo : Nat) :
    r0.Close.runner.closed = true
    ∧ r0.Close.runner.Spec env
        = ⟨Except.error
              (GoError.diagnostic "Error loading airbyte spec:" "" "" GoError.alreadyTerminated),
            r0.Close.runner, []⟩
    ∧ r0.Close.runner.Check inst env cenv cfg
        = (match saveConfig inst.configDir cenv cfg with
           | Except.error e => ⟨Except.error (GoError.msg e), r0.Close.runner, []⟩
           | Except.ok _ =>
             ⟨Except.error
                 (GoError.diagnostic "Error executing airbyte check:" "" ""
                   GoError.alreadyTerminated),
               r0.Close.runner, []⟩)
    ∧ r0.Close.runner.Discover inst env cenv cfg tmo
        = (match saveConfig inst.configDir cenv cfg with
           | Except.error e => ⟨Except.error (GoError.msg e), r0.Close.runner, []⟩
           | Except.ok _ =>
             ⟨Except.error
                 (GoError.diagnostic "Error loading airbyte catalog:" "" ""
                   GoError.alreadyTerminated),
               r0.Close.runner, []⟩)
    ∧ r0.Close.runner.Read inst env taskID sourceID statePath
        = ⟨Except.error GoError.alreadyTerminated, r0.Close.runner, []⟩
    ∧ r0.Close.runner.Close = ⟨CloseOutcome.alreadyTerminated, r0.Close.runner, []⟩ := by
  have hc := close_sets_flag r0
  exact ⟨hc, spec_closed_eq _ _ hc, check_closed_eq _ _ _ _ _ hc,
    discover_closed_eq _ _ _ _ _ _ hc, read_closed_eq _ _ _ _ _ _ hc, close_closed_eq _ hc⟩

def rCreatedEx : Runner := NewRunner "postgres" "0.3.9" "ident-2" "uuid-2"

/-- C2 (code bug): Close on a Runner in the Created state — never spawned a
process, `r.command` still nil — does set the flag and issue the container
stop, but then crashes the caller with a nil pointer dereference at
`r.command.Process.Kill()` (runner.go line 204) instead of terminating
cleanly. -/
theorem c2_close_on_created_runner_panics :
    rCreatedEx.closed = false
    ∧ rCreatedEx.command = none
    ∧ rCreatedEx.Close
        = ⟨CloseOutcome.panicNilProcess, { rCreatedEx with closed := true },
            [Event.dockerStop "ident-2",
              Event.panicked "nil pointer dereference: r.command is nil"]⟩ := by
  exact ⟨rfl, rfl, by decide⟩

/-- C3 counterexample: under the last-observed-wins policy of the
synchronous parser, a stream that observes a SUCCEEDED CONNECTION_STATUS
message followed by a FAILED one makes `Check` return the FAILED message —
so "returns nil if and only if a CONNECTION_STATUS message with status
SUCCEEDED was observed" fails in the only-if-observed direction. -/
theorem c3_counterexample :
    observedSucceeded envTwoStatuses.stdoutLines = true
    ∧ (rEx.Check instEx envTwoStatuses cenvOk "cfg").result
        = Except.error (GoError.msg "bad creds") := by
  exact ⟨by decide, by decide⟩

/-- C3 (amended): when the invocation runs (runner open, image pulled,
config materialized, the process starts and exits cleanly), `Check` returns
nil if and only if the LAST observed CONNECTION_STATUS message has status
SUCCEEDED; when the last observed status is FAILED the error text is exactly
the connector's message; for any other last observed status the error names
both the status and the message. -/
theorem c3_amended_check_last_status (r : Runner) (inst : Inst) (env : Env)
    (cenv : ConfigEnv) (cfg : String)
    (hOpen : r.closed = false) (hPulled : env.imagePulled = true)
    (hStart : env.startErr = none) (hWait : env.waitErr = none)
    (hDir : cenv.ensureDirErr = none) (hWrite : cenv.writeErr = none) :
    ((r.Check inst env cenv cfg).result = Except.ok ()
      ↔ ∃ l, lastMatch ConnectionStatusType env.stdoutLines = some l
          ∧ l.connectionStatus.status = connectionStatusSucceed)
    ∧ (∀ l, lastMatch ConnectionStatusType env.stdoutLines = some l →
        l.connectionStatus.status = connectionStatusFailed →
        (r.Check inst env cenv cfg).result
          = Except.error (GoError.msg l.connectionStatus.message))
    ∧ (∀ l, lastMatch ConnectionStatusType env.stdoutLines = some l →
        l.connectionStatus.status ≠ connectionStatusSucceed →
        l.connectionStatus.status ≠ connectionStatusFailed →
        (r.Check inst env cenv cfg).result
          = Except.error (GoError.msg ("unknown airbyte connection status ["
              ++ l.connectionStatus.status ++ "]: " ++ l.connectionStatus.message))) := by
  have hsc : saveConfig inst.configDir cenv cfg
      = Except.ok (pathJoin inst.configDir cenv.dirName,
          pathJoin cenv.dirName (cenv.fileBase ++ ".json")) := by
    simp [saveConfig, hDir, hWrite]
  cases hL : lastMatch ConnectionStatusType env.stdoutLines with
  | none =>
    have hcheck : (r.Check inst env cenv cfg).result
        = Except.error (GoError.diagnostic "Error executing airbyte check:"
            (syncOutput env.stdoutLines) env.stderrText
            (GoError.msg ("desired row type [" ++ ConnectionStatusType
              ++ "] was not found in output: " ++ syncOutput env.stdoutLines))) := by
      simp [Runner.Check, hsc, Runner.run, Runner.Close, hOpen, hPulled, hStart, hWait,
        syncParse, hL]
    refine ⟨?_, ?_, ?_⟩
    · rw [hcheck]
      constructor
      · intro h; cases h
      · rintro ⟨l, hl, _⟩; cases hl
    · intro l hl; cases hl
    · intro l hl; cases hl
  | some l =>
    have hcheck : (r.Check inst env cenv cfg).result
        = (if l.connectionStatus.status = connectionStatusSucceed then Except.ok ()
           else if l.connectionStatus.status = connectionStatusFailed then
             Except.error (GoError.msg l.connectionStatus.message)
           else
             Except.error (GoError.msg ("unknown airbyte connection status ["
               ++ l.connectionStatus.status ++ "]: " ++ l.connectionStatus.message))) := by
      simp [Runner.Check, hsc, Runner.run, Runner.Close, hOpen, hPulled, hStart, hWait,
        syncParse, hL, apply_ite OpResult.result]
    refine ⟨?_, ?_, ?_⟩
    · rw [hcheck]
      constructor
      · intro h
        by_cases hS : l.connectionStatus.status = connectionStatusSucceed
        · exact ⟨l, rfl, hS⟩
        · exfalso
          rw [if_neg hS] at h
          by_cases hF : l.connectionStatus.status = connectionStatusFailed
          · rw [if_pos hF] at h; cases h
          · rw [if_neg hF] at h; cases h
      · rintro ⟨l2, hl2, hS⟩
        have he : l = l2 := Option.some.inj hl2
        subst he
        rw [if_pos hS]
    · intro l2 hl2 hF
      have he : l = l2 := Option.some.inj hl2
      subst he
      rw [hcheck, hF, if_neg (by decide), if_pos rfl]
    · intro l2 hl2 hS hF
      have he : l = l2 := Option.some.inj hl2
      subst he
      rw [hcheck, if_neg hS, if_neg hF]

/-- C3 witness: the amended theorem applied to a concrete stream whose only
CONNECTION_STATUS line has status SUCCEEDED. -/
theorem c3_amended_witness :
    rEx.closed = false ∧ envOneSucceeded.imagePulled = true
    ∧ envOneSucceeded.startErr = none ∧ envOneSucceeded.waitErr = none
    ∧ cenvOk.ensureDirErr = none ∧ cenvOk.writeErr = none
    ∧ (rEx.Check instEx envOneSucceeded cenvOk "cfg").result = Except.ok () :=
  ⟨rfl, rfl, rfl, rfl, rfl, rfl,
    (c3_amended_check_last_status rEx instEx envOneSucceeded cenvOk "cfg"
        rfl rfl rfl rfl rfl rfl).1.mpr
      ⟨csLine "SUCCEEDED" "ok", by decide, rfl⟩⟩

/-- C4: a Runner executes at most one invocation during its lifetime: once
`run` passes its guards (open runner, pulled image) — i.e. the operation
reached the spawn stage — the runner it returns is in the Closed state
whatever the invocation's fate (clean exit, start failure, wait failure,
parse failure; a timeout or handler panic surfaces as such a failure of the
same deferred-Close path), so a second `run` short-circuits with
AlreadyTerminated and spawns nothing, and every public operation afterwards
returns an error and Close reports AlreadyTerminated. -/
theorem c4_single_invocation {α β : Type} (r : Runner) (env env2 : Env)
    (h1 : List Line → ParseOutcome α) (h2 : List Line → ParseOutcome β)
    (args1 args2 : List String)
    (hOpen : r.closed = false) (hPulled : env.imagePulled = true) :
    (r.run env h1 args1).runner.closed = true
    ∧ (r.run env h1 args1).runner.run env2 h2 args2
        = ⟨Except.error GoError.alreadyTerminated, "", "", (r.run env h1 args1).runner, []⟩
    ∧ ∀ (inst : Inst) (envB : Env) (cenv : ConfigEnv) (cfg tid sid sp : String) (tmo : Nat),
        (∃ e, ((r.run env h1 args1).runner.Spec envB).result = Except.error e)
        ∧ (∃ e, ((r.run env h1 args1).runner.Check inst envB cenv cfg).result = Except.error e)
        ∧ (∃ e, ((r.run env h1 args1).runner.Discover inst envB cenv cfg tmo).result
            = Except.error e)
        ∧ (∃ e, ((r.run env h1 args1).runner.Read inst envB tid sid sp).result = Except.error e)
        ∧ ((r.run env h1 args1).runner.Close).outcome = CloseOutcome.alreadyTerminated := by
  have hc : (r.run env h1 args1).runner.closed = true := by
    cases hst : env.startErr with
    | some e => simp [Runner.run, Runner.Close, hOpen, hPulled, hst]
    | none => simp [Runner.run, Runner.Close, hOpen, hPulled, hst]
  refine ⟨hc, run_closed_eq _ _ _ _ hc, ?_⟩
  intro inst envB cenv cfg tid sid sp tmo
  refine ⟨⟨GoError.diagnostic "Error loading airbyte spec:" "" "" GoError.alreadyTerminated, ?_⟩,
    ?_, ?_, ⟨GoError.alreadyTerminated, ?_⟩, ?_⟩
  · rw [spec_closed_eq _ envB hc]
  · cases hsc : saveConfig inst.configDir cenv cfg with
    | error e => exact ⟨GoError.msg e, by rw [check_closed_eq _ _ _ _ _ hc, hsc]⟩
    | ok p =>
      exact ⟨GoError.diagnostic "Error executing airbyte check:" "" "" GoError.alreadyTerminated,
        by rw [check_closed_eq _ _ _ _ _ hc, hsc]⟩
  · cases hsc : saveConfig inst.configDir cenv cfg with
    | error e => exact ⟨GoError.msg e, by rw [discover_closed_eq _ _ _ _ _ _ hc, hsc]⟩
    | ok p =>
      exact ⟨GoError.diagnostic "Error loading airbyte catalog:" "" "" GoError.alreadyTerminated,
        by rw [discover_closed_eq _ _ _ _ _ _ hc, hsc]⟩
  · rw [read_closed_eq _ inst envB tid sid sp hc]
  · rw [close_closed_eq _ hc]

/-- C4 witness: the single-use theorem applied at concrete inputs. -/
theorem c4_single_invocation_witness :
    rEx.closed = false ∧ envPulled.imagePulled = true
    ∧ (rEx.run envPulled (syncParse SpecType) []).runner.closed = true
    ∧ (rEx.run envPulled (syncParse SpecType) []).runner.run envPulled (syncParse SpecType) []
        = ⟨Except.error GoError.alreadyTerminated, "", "",
            (rEx.run envPulled (syncParse SpecType) []).runner, []⟩ :=
  ⟨rfl, rfl,
    (c4_single_invocation rEx envPulled envPulled (syncParse SpecType) (syncParse SpecType)
        [] [] rfl rfl).1,
    (c4_single_invocation rEx envPulled envPulled (syncParse SpecType) (syncParse SpecType)
        [] [] rfl rfl).2.1⟩

/-- C5: with the runner still open (Created state), when the image-runtime
collaborator reports the image as not pulled, every operation returns the
NotReady sentinel verbatim (not wrapped in a diagnostic message), leaves the
runner unchanged, spawns no process and performs no termination action; for
Check and Discover this is stated past config materialization, which the
code runs before the image check. -/
theorem c5_not_pulled_not_ready (r : Runner) (inst : Inst) (env : Env)
    (cenv : ConfigEnv) (cfg taskID sourceID statePath : String) (tmo : Nat)
    (hOpen : r.closed = false) (hPulled : env.imagePulled = false)
    (hDir : cenv.ensureDirErr = none) (hWrite : cenv.writeErr = none) :
    r.Spec env = ⟨Except.error GoError.notReady, r, []⟩
    ∧ r.Check inst env cenv cfg = ⟨Except.error GoError.notReady, r, []⟩
    ∧ r.Discover inst env cenv cfg tmo = ⟨Except.error GoError.notReady, r, []⟩
    ∧ r.Read inst env taskID sourceID statePath = ⟨Except.error GoError.notReady, r, []⟩ := by
  have hsc : saveConfig inst.configDir cenv cfg
      = Except.ok (pathJoin inst.configDir cenv.dirName,
          pathJoin cenv.dirName (cenv.fileBase ++ ".json")) := by
    simp [saveConfig, hDir, hWrite]
  refine ⟨?_, ?_, ?_, ?_⟩
  · simp [Runner.Spec, run_notpulled_eq _ _ _ _ hOpen hPulled]
  · simp [Runner.Check, hsc, run_notpulled_eq _ _ _ _ hOpen hPulled]
  · simp [Runner.Discover, hsc, run_notpulled_eq _ _ _ _ hOpen hPulled]
  · simp [Runner.Read, run_notpulled_eq _ _ _ _ hOpen hPulled]

/-- C5 witness: the NotReady theorem applied at concrete inputs. -/
theorem c5_not_pulled_witness :
    rEx.closed = false ∧ envNotPulled.imagePulled = false
    ∧ cenvOk.ensureDirErr = none ∧ cenvOk.writeErr = none
    ∧ rEx.Check instEx envNotPulled cenvOk "cfg" = ⟨Except.error GoError.notReady, rEx, []⟩ :=
  ⟨rfl, rfl, rfl, rfl,
    (c5_not_pulled_not_ready rEx instEx envNotPulled cenvOk "cfg" "task-1" "src-1" "" 0
        rfl rfl rfl rfl).2.1⟩

/-- C6 counterexample: Read names the container after the task identifier
from the task closer (runner.go line 185), not after the Runner's own
identifier: with a runner whose identifier is "ident-1" and a task id
"task-42", the argument following `--name` of the spawned read command is
"task-42" — while the out-of-band stop of `Close` still addresses
"ident-1". -/
theorem c6_counterexample :
    rEx.identifier = "ident-1"
    ∧ (rEx.readArgs instEx "task-42" "src-1" "").get? 4 = some "task-42"
    ∧ (rEx.readArgs instEx "task-42" "src-1" "").get? 4 ≠ some rEx.identifier
    ∧ (rEx.Read instEx envPulled "task-42" "src-1" "").events.head?
        = some (Event.spawn DockerCommand (rEx.readArgs instEx "task-42" "src-1" "")) := by
  exact ⟨rfl, by decide, by decide, by decide⟩

/-- C6 (amended): for the spec, check and discover commands the argument
following `--name` is the Runner's own identifier; for the read command it
is the task identifier supplied by the task closer, which coincides with the
Runner's identity only when the Runner was constructed with the task id as
its identifier. -/
theorem c6_amended_container_names (r : Runner) (inst : Inst)
    (relPath taskID sourceID statePath : String) :
    r.specArgs.get? 3 = some "--name" ∧ r.specArgs.get? 4 = some r.identifier
    ∧ (r.checkArgs inst relPath).get? 3 = some "--name"
    ∧ (r.checkArgs inst relPath).get? 4 = some r.identifier
    ∧ (r.discoverArgs inst relPath).get? 3 = some "--name"
    ∧ (r.discoverArgs inst relPath).get? 4 = some r.identifier
    ∧ (r.readArgs inst taskID sourceID statePath).get? 3 = some "--name"
    ∧ (r.readArgs inst taskID sourceID statePath).get? 4 = some taskID := by
  refine ⟨rfl, rfl, rfl, rfl, rfl, rfl, ?_, ?_⟩ <;>
    (unfold Runner.readArgs; split <;> rfl)

/-- C7: the read command always carries `--config` and `--catalog` paths
joined from the mount alias, the source id, the image name and the fixed
file names (never from `statePath`), and carries a `--state` argument — with
a path of the same fixed convention — exactly when `statePath` is
non-empty. -/
theorem c7_read_args_convention (r : Runner) (inst : Inst)
    (taskID sourceID statePath : String) :
    (r.readArgs inst taskID sourceID statePath).get? 9 = some "--config"
    ∧ (r.readArgs inst taskID sourceID statePath).get? 10
        = some (pathJoin (pathJoin (pathJoin inst.volumeAlias sourceID) r.dockerImage)
            configFileName)
    ∧ (r.readArgs inst taskID sourceID statePath).get? 11 = some "--catalog"
    ∧ (r.readArgs inst taskID sourceID statePath).get? 12
        = some (pathJoin (pathJoin (pathJoin inst.volumeAlias sourceID) r.dockerImage)
            catalogFileName)
    ∧ (r.readArgs inst taskID sourceID statePath).length = (if statePath = "" then 13 else 15)
    ∧ (r.readArgs inst taskID sourceID statePath).get? 13
        = (if statePath = "" then none else some "--state")
    ∧ (r.readArgs inst taskID sourceID statePath).get? 14
        = (if statePath = "" then none
           else some (pathJoin (pathJoin (pathJoin inst.volumeAlias sourceID) r.dockerImage)
             stateFileName)) := by
  by_cases h : statePath = "" <;> simp [Runner.readArgs, h]

/-- C8: when config materialization fails — directory creation failure or
serialization failure — Check and Discover return exactly the materializer's
error, leave the runner untouched and spawn no process (empty event
trace). -/
theorem c8_materialization_failure_aborts (r : Runner) (inst : Inst) (env : Env)
    (cenv : ConfigEnv) (cfg : String) (tmo : Nat) :
    (∀ e, cenv.ensureDirErr = some e →
      r.Check inst env cenv cfg
        = ⟨Except.error (GoError.msg ("Error creating airbyte generated config dir: " ++ e)),
            r, []⟩
      ∧ r.Discover inst env cenv cfg tmo
        = ⟨Except.error (GoError.msg ("Error creating airbyte generated config dir: " ++ e)),
            r, []⟩)
    ∧ (∀ e, cenv.ensureDirErr = none → cenv.writeErr = some e →
      r.Check inst env cenv cfg
        = ⟨Except.error (GoError.msg ("Error writing airbyte config [" ++ cfg ++ "]: " ++ e)),
            r, []⟩
      ∧ r.Discover inst env cenv cfg tmo
        = ⟨Except.error (GoError.msg ("Error writing airbyte config [" ++ cfg ++ "]: " ++ e)),
            r, []⟩) := by
  constructor
  · intro e he
    have hsc : saveConfig inst.configDir cenv cfg
        = Except.error ("Error creating airbyte generated config dir: " ++ e) := by
      simp [saveConfig, he]
    exact ⟨by simp [Runner.Check, hsc], by simp [Runner.Discover, hsc]⟩
  · intro e hd hw
    have hsc : saveConfig inst.configDir cenv cfg
        = Except.error ("Error writing airbyte config [" ++ cfg ++ "]: " ++ e) := by
      simp [saveConfig, hd, hw]
    exact ⟨by simp [Runner.Check, hsc], by simp [Runner.Discover, hsc]⟩

/-- C8 witness: a directory-creation failure at concrete inputs. -/
theorem c8_materialization_failure_witness :
    cenvDirFail.ensureDirErr = some "disk full"
    ∧ rEx.Check instEx envPulled cenvDirFail "cfg"
        = ⟨Except.error
              (GoError.msg ("Error creating airbyte generated config dir: " ++ "disk full")),
            rEx, []⟩ :=
  ⟨rfl,
    ((c8_materialization_failure_aborts rEx instEx envPulled cenvDirFail "cfg" 0).1
        "disk full" rfl).1⟩

/-- C9 (code bug): the failing interleaving of two Close triggers — both
pass the `terminated()` guard before either closes the channel (schedule:
thread 1 check, thread 2 check, thread 1 close-channel, thread 1 stop+kill,
thread 2 close-channel).  Exactly one termination action is indeed
performed, but the second trigger panics in Go (close of a closed channel)
instead of being a no-op. -/
theorem c9_close_race_second_trigger_panics :
    runSchedule [true, false, true, true, false]
      = { chanClosed := true
          t1 := ThreadState.retKilled
          t2 := ThreadState.panickedClosedChan
          stopCount := 1
          killCount := 1 } := by decide

/-- Serialized triggers are safe: when one Close runs to completion before
the other starts, exactly one termination action happens and the second
trigger returns AlreadyTerminated — the race, not the sequential pair, is
what breaks the claim. -/
theorem close_race_serialized_ok :
    runSchedule [true, true, true, false]
      = { chanClosed := true
          t1 := ThreadState.retKilled
          t2 := ThreadState.retAlreadyTerminated
          stopCount := 1
          killCount := 1 } := by decide

/-- C10: Read's behavior is independent of the content of a non-empty
statePath: two Read invocations differing only in their (non-empty)
statePath values build the same command and produce identical results,
because the statePath string is only tested for emptiness and the `--state`
path is derived from the source id, the image name and the fixed state file
name. -/
theorem c10_read_state_content_independent (r : Runner) (inst : Inst) (env : Env)
    (taskID sourceID sp1 sp2 : String) (h1 : sp1 ≠ "") (h2 : sp2 ≠ "") :
    r.readArgs inst taskID sourceID sp1 = r.readArgs inst taskID sourceID sp2
    ∧ r.Read inst env taskID sourceID sp1 = r.Read inst env taskID sourceID sp2 := by
  have hargs : r.readArgs inst taskID sourceID sp1 = r.readArgs inst taskID sourceID sp2 := by
    simp [Runner.readArgs, h1, h2]
  exact ⟨hargs, by simp [Runner.Read, hargs]⟩

/-- C10 witness: two different non-empty statePath values at concrete
inputs. -/
theorem c10_read_state_content_witness :
    ("old-state.json" ≠ ("" : String)) ∧ ("other.json" ≠ ("" : String))
    ∧ rEx.Read instEx envPulled "task-1" "src-1" "old-state.json"
        = rEx.Read instEx envPulled "task-1" "src-1" "other.json" :=
  ⟨by decide, by decide,
    (c10_read_state_content_independent rEx instEx envPulled "task-1" "src-1"
        "old-state.json" "other.json" (by decide) (by decide)).2⟩

end AirbyteRunner
